import Mathlib

/-!
A shallow embedding of the `nimbus` cloud-helper crate (src/lib.rs,
src/secret.rs, src/storage.rs, src/task.rs) and proofs about its helper
traits.

Conventions of the embedding:
* byte vectors (`Vec<u8>`) are `List Nat`;
* `Result<T, E>` is `Except E T`; `Option<T>` is `Option T`;
* each remote SDK call is modelled explicitly: either as a function over an
  explicit store state (the spec's "the wrapped SDK echoes back what was
  sent" model) together with an injected network fault (`Option String`,
  `some e` meaning the request itself failed with error `e`), or as an
  abstract response parameter when a claim quantifies over all SDK
  responses;
* the wrapped SDK error types (`google_cloud_storage::http::Error`,
  `google_secretmanager1::Error`, `google_cloudtasks2::Error`, the AWS SDK
  errors rendered through `to_string`, and `std::io::Error`) are opaque to
  this crate and are modelled as `String`.
-/

namespace Nimbus

/-- Bytes of a `Vec<u8>` / `&[u8]`, one `Nat` per byte. -/
abbrev Bytes := List Nat

/-- UTF-8 bytes of a Rust `&str` (`str::as_bytes`). -/
def utf8Bytes (s : String) : Bytes :=
  s.toUTF8.toList.map (fun b => b.toNat)

/-- Association-list lookup, first binding wins (used for every remote
store and filesystem map in this embedding). -/
def alookup {α β : Type} [DecidableEq α] : List (α × β) → α → Option β
  | [], _ => none
  | (k, v) :: rest, a => if a = k then some v else alookup rest a

namespace secret

/-- `secret::Error` from src/secret.rs. The `gcp` variant of
`SecretManager` wraps `google_secretmanager1::Error` and the `aws` variant
wraps `String`; both are modelled with a `String` payload. -/
inductive Error where
  | NoData
  | NoPayload
  | Other (msg : String)
  | SecretManager (msg : String)
deriving DecidableEq

end secret

namespace storage

/-- `storage::Error` from src/storage.rs. `StorageAuth` and the two
cfg-variants of `Storage` wrap opaque SDK errors, modelled as `String`.
`IOErr` is the source's `IO(#[from] std::io::Error)` variant, renamed
here. -/
inductive Error where
  | StorageAuth (msg : String)
  | Storage (msg : String)
  | IOErr (msg : String)
  | InvalidFileType (msg : String)
  | Other (msg : String)
deriving DecidableEq

end storage

namespace task

/-- `task::Error` from src/task.rs; `CloudTasks` wraps
`google_cloudtasks2::Error`, modelled as `String`. -/
inductive Error where
  | Other (msg : String)
  | CloudTasks (msg : String)
deriving DecidableEq

end task

/-- `NimbusError` from src/lib.rs. -/
inductive NimbusError where
  | SecretManager (e : secret.Error)
  | StorageClient (e : storage.Error)
  | TasksClient (e : task.Error)
  | Other (msg : String)
deriving DecidableEq

namespace storage

/-- A stored object: optional content type (MIME) and payload bytes.
The GCS `Object` metadata beyond `content_type` (all left at
`Default::default()` by the source) is not modelled. -/
structure StoredObject where
  content_type : Option String
  data : Bytes
deriving DecidableEq

/-- The remote object store, modelled as a map from (bucket, key) to the
stored object — the spec's model "the wrapped SDK echoes back what was
sent". First binding wins on lookup. -/
abbrev Store := List ((String × String) × StoredObject)

/-- Models the GCS SDK `upload_object` call (external collaborator): on a
network fault the request fails with the fault's error, otherwise the
object is stored under (bucket, key) and the call succeeds. The source
passes the key as the `Object.name` of a multipart upload; here the name
is folded into the map key. -/
def gcs_upload_object (fault : Option String) (st : Store) (bucket key : String)
    (obj : StoredObject) : Store × Except String Unit :=
  match fault with
  | some e => (st, .error e)
  | none => (((bucket, key), obj) :: st, .ok ())

/-- Models the GCS SDK `download_object` call (external collaborator):
fails on a network fault or a missing object, otherwise returns the stored
bytes. -/
def gcs_download_object (fault : Option String) (st : Store) (bucket key : String) :
    Except String Bytes :=
  match fault with
  | some e => .error e
  | none =>
    match alookup st (bucket, key) with
    | some obj => .ok obj.data
    | none => .error "object not found"

namespace gcp

/-- `StorageHelper::upload_from_bytes` for the GCP client,
src/storage.rs lines 128–154: one `upload_object` call, errors mapped to
`Error::Storage`. -/
def upload_from_bytes (fault : Option String) (st : Store) (bucket key : String)
    (mime : Option String) (data : Bytes) : Store × Except NimbusError Unit :=
  match gcs_upload_object fault st bucket key ⟨mime, data⟩ with
  | (st', .ok ()) => (st', .ok ())
  | (st', .error e) => (st', .error (.StorageClient (.Storage e)))

/-- `StorageHelper::download_to_bytes` for the GCP client,
src/storage.rs lines 157–171: one `download_object` call, errors mapped to
`Error::Storage`. -/
def download_to_bytes (fault : Option String) (st : Store) (bucket key : String) :
    Except NimbusError Bytes :=
  match gcs_download_object fault st bucket key with
  | .ok a => .ok a
  | .error e => .error (.StorageClient (.Storage e))

end gcp

/-- One `try_next()` outcome of the AWS response body stream: a successful
chunk of bytes, or a stream failure. The stream ends when the event list
is exhausted (`Ok(None)`). -/
inductive StreamEvent where
  | chunk (bytes : Bytes)
  | fail (msg : String)
deriving DecidableEq

/-- The `while let Ok(Some(bytes)) = d.body.try_next().await` loop of the
AWS `download_to_bytes` (src/storage.rs lines 222–227): successful chunks
are appended to the accumulator; a stream failure makes the `while let`
pattern fail, which EXITS the loop — the failure itself is dropped and the
bytes accumulated so far are kept. (`res.write_all` into a `Vec` cannot
fail, so that error branch is dead.) -/
def read_body : List StreamEvent → Bytes → Bytes
  | [], acc => acc
  | .chunk bs :: rest, acc => read_body rest (acc ++ bs)
  | .fail _ :: _, acc => acc

namespace aws

/-- The AWS `download_to_bytes` (src/storage.rs lines 217–233) applied to
the raw outcome of the `get_object` send: a send error is wrapped in
`Error::Storage`; on success the body stream is drained by the
`while let Ok(Some(_))` loop and the accumulated bytes are returned as
`Ok`. -/
def download_to_bytes_resp (resp : Except String (List StreamEvent)) :
    Except NimbusError Bytes :=
  match resp with
  | .ok events => .ok (read_body events [])
  | .error e => .error (.StorageClient (.Storage e))

end aws

/-- Models the S3 SDK `put_object` send (external collaborator): on a
network fault the request fails, otherwise the object is stored under
(bucket, key). -/
def s3_put_object (fault : Option String) (st : Store) (bucket key : String)
    (obj : StoredObject) : Store × Except String Unit :=
  match fault with
  | some e => (st, .error e)
  | none => (((bucket, key), obj) :: st, .ok ())

/-- Models the S3 SDK `get_object` send (external collaborator): fails on
a network fault or a missing key, otherwise delivers the stored bytes as a
single-chunk body stream. -/
def s3_get_object (fault : Option String) (st : Store) (bucket key : String) :
    Except String (List StreamEvent) :=
  match fault with
  | some e => .error e
  | none =>
    match alookup st (bucket, key) with
    | some obj => .ok [.chunk obj.data]
    | none => .error "NoSuchKey"

namespace aws

/-- `StorageHelper::upload_from_bytes` for the AWS client,
src/storage.rs lines 196–215: one `put_object` send with
`set_content_type(mime)`, errors stringified into `Error::Storage`. -/
def upload_from_bytes (fault : Option String) (st : Store) (bucket key : String)
    (mime : Option String) (data : Bytes) : Store × Except NimbusError Unit :=
  match s3_put_object fault st bucket key ⟨mime, data⟩ with
  | (st', .ok ()) => (st', .ok ())
  | (st', .error e) => (st', .error (.StorageClient (.Storage e)))

/-- `StorageHelper::download_to_bytes` for the AWS client over the store
model: the `get_object` send outcome is handled by
`download_to_bytes_resp`. -/
def download_to_bytes (fault : Option String) (st : Store) (bucket key : String) :
    Except NimbusError Bytes :=
  download_to_bytes_resp (s3_get_object fault st bucket key)

end aws

/-- The file type inferred by the `infer` crate's magic-byte sniffer
(`infer::Type`): its extension and MIME type. The sniffer itself is an
external collaborator (spec: "a magic-byte signature lookup table
maintained elsewhere") and is abstracted as a function parameter. -/
structure FileType where
  extension : String
  mime_type : String
deriving DecidableEq

/-- `StorageHelper::valid_file_type` default method, src/storage.rs lines
108–122, with `infer::get` abstracted as `get`: `Err(InvalidFileType)`
when no type is inferred or the inferred extension differs from
`expected`, `Ok(())` otherwise. -/
def valid_file_type (get : Bytes → Option FileType) (file : Bytes) (expected : String) :
    Except NimbusError Unit :=
  match get file with
  | none => .error (.StorageClient (.InvalidFileType "Failed to get file type"))
  | some file_type =>
    if file_type.extension ≠ expected then
      .error (.StorageClient (.InvalidFileType
        ("File type is not valid. Expected: " ++ expected ++ ", got: " ++
          file_type.extension)))
    else
      .ok ()

/-- A filesystem path as a list of segments. `PathBuf::join key` appends
`key` as one segment (keys containing separators are not distinguished at
this level), so the joined path's parent is exactly the directory it was
joined onto. -/
abbrev Path := List String

/-- The local filesystem, modelled as a set of existing directories and a
map from file paths to contents (first binding wins). -/
structure FS where
  dirs : List Path
  files : List (Path × Bytes)
deriving DecidableEq

/-- `Path::exists`: something (directory or file) is present at `p`. -/
def FS.existsPath (fs : FS) (p : Path) : Bool :=
  fs.dirs.contains p || (fs.files.map (fun f => f.1)).contains p

/-- `Path::is_dir`: a directory is present at `p`. -/
def FS.is_dir (fs : FS) (p : Path) : Bool :=
  fs.dirs.contains p

/-- Models `tokio::fs::create_dir_all`: fails (with an I/O error) when a
file occupies the path, otherwise records the path as a directory. -/
def FS.create_dir_all (fs : FS) (p : Path) : Except String FS :=
  if (fs.files.map (fun f => f.1)).contains p then
    .error "file exists at path"
  else
    .ok ⟨p :: fs.dirs, fs.files⟩

/-- Models `tokio::fs::write`: fails (with an I/O error) when a directory
occupies the path, otherwise creates/overwrites the file. -/
def FS.writeFile (fs : FS) (p : Path) (data : Bytes) : Except String FS :=
  if fs.dirs.contains p then
    .error "is a directory"
  else
    .ok ⟨fs.dirs, (p, data) :: fs.files⟩

/-- Models `tokio::fs::read`: the file's bytes, or an I/O error when no
file is present at the path. -/
def FS.readFile (fs : FS) (p : Path) : Except String Bytes :=
  match alookup fs.files p with
  | some data => .ok data
  | none => .error "No such file or directory"

/-- `StorageHelper::download_file` default method, src/storage.rs lines
75–105, with `self.download_to_bytes bucket key` abstracted as `dl` (the
trait object). Steps, in source order: create `path_dir` if it does not
exist; error if `path_dir` is (still) not a directory; download the
bytes; create the target's parent directory; write the bytes to
`path_dir.join(key)` and return that path. -/
def download_file (dl : String → String → Except NimbusError Bytes)
    (fs : FS) (bucket key : String) (path_dir : Path) :
    Except NimbusError (FS × Path) :=
  match (if fs.existsPath path_dir then Except.ok fs
         else
           match fs.create_dir_all path_dir with
           | .ok fs1 => .ok fs1
           | .error e => .error (NimbusError.StorageClient (.IOErr e))) with
  | .error e => .error e
  | .ok fs1 =>
    if fs1.is_dir path_dir then
      match dl bucket key with
      | .error e => .error e
      | .ok data =>
        let path : Path := path_dir ++ [key]
        match fs1.create_dir_all path.dropLast with
        | .error e => .error (.StorageClient (.IOErr e))
        | .ok fs2 =>
          match fs2.writeFile path data with
          | .error e => .error (.StorageClient (.IOErr e))
          | .ok fs3 => .ok (fs3, path)
    else
      .error (.StorageClient (.Other
        ("Path " ++ String.intercalate "/" path_dir ++ " is not a directory")))

namespace gcp

/-- `StorageHelper::upload_file` default method instantiated at the GCP
client, src/storage.rs lines 68–72: read the file at `path`
(`Error::IO` on failure) and `upload_from_bytes` it with `mime = None`. -/
def upload_file (fault : Option String) (st : Store) (fs : FS)
    (bucket key : String) (path : Path) : Store × Except NimbusError Unit :=
  match fs.readFile path with
  | .error e => (st, .error (.StorageClient (.IOErr e)))
  | .ok data => upload_from_bytes fault st bucket key none data

end gcp

end storage

namespace secret

/-- `SecretPayload` of the GCP Secret Manager API: optional data bytes. -/
structure SecretPayload where
  data : Option Bytes
deriving DecidableEq

/-- `AccessSecretVersionResponse` of the GCP Secret Manager API: optional
payload. -/
structure AccessSecretVersionResponse where
  payload : Option SecretPayload
deriving DecidableEq

/-- The remote secret store, modelled as a map from (project, secret name)
to the list of payload versions in creation order (version `n` of the API
is entry `n - 1`; versions are numbered from 1). First binding wins. -/
abbrev SecretStore := List ((String × String) × List Bytes)

/-- Models the SDK `secrets_versions_access` call (external collaborator).
The source addresses it with the formatted resource name
`projects/{project}/secrets/{secret}/versions/{version}`; the model takes
the three components directly. `"latest"` resolves to the newest version,
a numeric version to the corresponding entry, and anything else — or a
missing secret, version or network fault — fails with an SDK error. A
present version is returned with `payload = Some` and `data = Some`. -/
def secrets_versions_access (fault : Option String) (st : SecretStore)
    (project secret version : String) : Except String AccessSecretVersionResponse :=
  match fault with
  | some e => .error e
  | none =>
    match alookup st (project, secret) with
    | none => .error "secret not found"
    | some versions =>
      if version = "latest" then
        match versions.getLast? with
        | some d => .ok ⟨some ⟨some d⟩⟩
        | none => .error "no versions"
      else
        match version.toNat? with
        | some n =>
          match versions[n - 1]? with
          | some d => .ok ⟨some ⟨some d⟩⟩
          | none => .error "version not found"
        | none => .error "invalid version"

/-- Models the SDK `secrets_create` call (external collaborator): fails on
a network fault or when the secret already exists (`ALREADY_EXISTS`),
otherwise registers the secret with no versions. -/
def secrets_create (fault : Option String) (st : SecretStore)
    (project secret_id : String) : SecretStore × Except String Unit :=
  match fault with
  | some e => (st, .error e)
  | none =>
    match alookup st (project, secret_id) with
    | some _ => (st, .error "secret already exists")
    | none => (((project, secret_id), []) :: st, .ok ())

/-- Models the SDK `secrets_add_version` call (external collaborator):
fails on a network fault, a missing secret, or a request without payload
data; otherwise appends the payload data as the newest version. -/
def secrets_add_version (fault : Option String) (st : SecretStore)
    (project secret_id : String) (payload : Option SecretPayload) :
    SecretStore × Except String Unit :=
  match fault with
  | some e => (st, .error e)
  | none =>
    match payload with
    | some ⟨some d⟩ =>
      match alookup st (project, secret_id) with
      | some versions => (((project, secret_id), versions ++ [d]) :: st, .ok ())
      | none => (st, .error "secret not found")
    | _ => (st, .error "payload data required")

namespace gcp

/-- The unwrap logic of the GCP `get_secret` (src/secret.rs lines
160–180) applied to the raw SDK outcome: an SDK failure is wrapped in
`Error::SecretManager`; a response without payload is `Error::NoPayload`;
a payload without data is `Error::NoData`; otherwise the data bytes. -/
def get_secret_of_resp (r : Except String AccessSecretVersionResponse) :
    Except NimbusError Bytes :=
  match r with
  | .error e => .error (.SecretManager (.SecretManager e))
  | .ok s =>
    match s.payload with
    | some pl =>
      match pl.data with
      | some data => .ok data
      | none => .error (.SecretManager .NoData)
    | none => .error (.SecretManager .NoPayload)

/-- `SecretManagerHelper::get_secret` for the GCP client over the store
model: accesses `projects/{project}/secrets/{secret}/versions/latest`. -/
def get_secret (fault : Option String) (st : SecretStore) (project secret : String) :
    Except NimbusError Bytes :=
  get_secret_of_resp (secrets_versions_access fault st project secret "latest")

/-- The unwrap logic of the GCP `get_secret_version` (src/secret.rs lines
221–249) applied to the raw SDK outcome; the source duplicates the
`get_secret` unwrap code verbatim, and so does the model. -/
def get_secret_version_of_resp (r : Except String AccessSecretVersionResponse) :
    Except NimbusError Bytes :=
  match r with
  | .error e => .error (.SecretManager (.SecretManager e))
  | .ok s =>
    match s.payload with
    | some pl =>
      match pl.data with
      | some data => .ok data
      | none => .error (.SecretManager .NoData)
    | none => .error (.SecretManager .NoPayload)

/-- `SecretManagerHelper::get_secret_version` for the GCP client over the
store model: accesses
`projects/{project}/secrets/{secret}/versions/{version}`. -/
def get_secret_version (fault : Option String) (st : SecretStore)
    (project secret version : String) : Except NimbusError Bytes :=
  get_secret_version_of_resp (secrets_versions_access fault st project secret version)

/-- `SecretManagerHelper::create_secret` for the GCP client,
src/secret.rs lines 182–219: one `secrets_create` call, then one
`secrets_add_version` call whose payload data is `secret_val.as_bytes()`;
either SDK failure is wrapped in `Error::SecretManager` and returned.
`fault1`/`fault2` are the network faults injected into the two calls. -/
def create_secret (fault1 fault2 : Option String) (st : SecretStore)
    (project secret_name : String) (secret_val : String) :
    SecretStore × Except NimbusError Unit :=
  match secrets_create fault1 st project secret_name with
  | (st1, .error e) => (st1, .error (.SecretManager (.SecretManager e)))
  | (st1, .ok ()) =>
    match secrets_add_version fault2 st1 project secret_name
        (some ⟨some (utf8Bytes secret_val)⟩) with
    | (st2, .error e) => (st2, .error (.SecretManager (.SecretManager e)))
    | (st2, .ok ()) => (st2, .ok ())

end gcp

/-- `GetSecretValueResponse` of the AWS Secrets Manager API: optional
string payload and optional binary payload (`Blob`, modelled as bytes). -/
structure GetSecretValueResponse where
  secret_string : Option String
  secret_binary : Option Bytes
deriving DecidableEq

namespace aws

/-- The AWS `get_secret` (src/secret.rs lines 73–88) applied to the raw
outcome of the `get_secret_value` send: a send error is stringified into
`Error::SecretManager`; a response without `secret_string` is an
`Error::SecretManager("invalid secret")`; otherwise the string's bytes. -/
def get_secret_of_resp (r : Except String GetSecretValueResponse) :
    Except NimbusError Bytes :=
  match r with
  | .error e => .error (.SecretManager (.SecretManager e))
  | .ok res =>
    match res.secret_string with
    | some data => .ok (utf8Bytes data)
    | none => .error (.SecretManager (.SecretManager "invalid secret"))

/-- The AWS `get_secret_version` (src/secret.rs lines 91–117) applied to
the raw outcome of the `get_secret_value` send (with a `version_stage`):
like `get_secret` but reading `secret_binary` (`Blob::into_inner`)
instead of `secret_string`. -/
def get_secret_version_of_resp (r : Except String GetSecretValueResponse) :
    Except NimbusError Bytes :=
  match r with
  | .error e => .error (.SecretManager (.SecretManager e))
  | .ok res =>
    match res.secret_binary with
    | some data => .ok data
    | none => .error (.SecretManager (.SecretManager "invalid secret"))

/-- The payload a secret stored in AWS Secrets Manager actually has:
either a string or a binary, never both (the service accepts exactly one
of `SecretString`/`SecretBinary` per version). -/
inductive StoredPayload where
  | str (s : String)
  | bin (b : Bytes)
deriving DecidableEq

/-- The `GetSecretValueResponse` the service produces for a stored
payload. -/
def respOf : StoredPayload → GetSecretValueResponse
  | .str s => ⟨some s, none⟩
  | .bin b => ⟨none, some b⟩

end aws

end secret

namespace task

/-- `OidcToken` of the Cloud Tasks API. -/
structure OidcToken where
  service_account_email : Option String
  audience : Option String
deriving DecidableEq

/-- `OauthToken` of the Cloud Tasks API (never set by this crate). -/
structure OauthToken where
  service_account_email : Option String
  scope : Option String
deriving DecidableEq

/-- `chrono::DateTime<Utc>`, modelled as an opaque timestamp. -/
abbrev DateTimeUtc := Int

/-- `HttpRequest` of the Cloud Tasks API (the fields this crate touches
plus `oauth_token`, which `..Default::default()` leaves `None`). -/
structure HttpRequest where
  body : Option Bytes
  headers : Option (List (String × String))
  http_method : Option String
  oauth_token : Option OauthToken
  oidc_token : Option OidcToken
  url : Option String
deriving DecidableEq

/-- `Default::default()` for `HttpRequest`: every field `None`. -/
def HttpRequest.default : HttpRequest :=
  ⟨none, none, none, none, none, none⟩

/-- `Task` of the Cloud Tasks API (the fields this crate touches plus a
representative sample of the remaining metadata fields, all of which
`..Default::default()` leaves `None`). -/
structure Task where
  create_time : Option DateTimeUtc
  dispatch_count : Option Int
  http_request : Option HttpRequest
  name : Option String
  schedule_time : Option DateTimeUtc
  view : Option String
deriving DecidableEq

/-- `Default::default()` for `Task`: every field `None`. -/
def Task.default : Task :=
  ⟨none, none, none, none, none, none⟩

/-- `TaskHelper::new_task`, src/task.rs lines 22–46: builds an
`HttpRequest` from the given url, method, body, headers and OIDC token
(the rest defaulted), and wraps it in a `Task` with the given name and
schedule time (the rest defaulted). -/
def Task.new_task (service method : String) (body : Option Bytes)
    (headers : Option (List (String × String))) (name : Option String)
    (schedule_time : Option DateTimeUtc) (oidc_token : Option OidcToken) : Task :=
  let http_request : HttpRequest :=
    { HttpRequest.default with
        url := some service
        body := body
        http_method := some method
        oidc_token := oidc_token
        headers := headers }
  { Task.default with
      name := name
      http_request := some http_request
      schedule_time := schedule_time }

/-- `CreateTaskRequest` of the Cloud Tasks API. -/
structure CreateTaskRequest where
  response_view : Option String
  task : Option Task
deriving DecidableEq

/-- `hyper::Response<Body>`, modelled by its status code only. -/
structure HttpResponse where
  status : Nat
deriving DecidableEq

/-- The SDK `locations_queues_tasks_create` call (external collaborator),
abstracted as a function from the request and the queue name to its
outcome. -/
abbrev TasksSdk := CreateTaskRequest → String → Except String (HttpResponse × Task)

/-- `CloudTaskHelper::push_task` for the CloudTasks client, src/task.rs
lines 112–131: builds a `CreateTaskRequest` with `task = Some(task)` and
`response_view = res_view`, performs `locations_queues_tasks_create` on
the named queue, and wraps an SDK failure in `Error::CloudTasks`. -/
def push_task (sdk : TasksSdk) (queue : String) (task : Task)
    (res_view : Option String) : Except NimbusError (HttpResponse × Task) :=
  match sdk ⟨res_view, some task⟩ queue with
  | .ok a => .ok a
  | .error e => .error (.TasksClient (.CloudTasks e))

/-- `CloudTaskHelper::push` default method, src/task.rs lines 58–81:
builds the task with `Task::new_task` and delegates to `push_task`. -/
def push (sdk : TasksSdk) (queue service method : String) (body : Option Bytes)
    (headers : Option (List (String × String))) (name : Option String)
    (schedule_time : Option DateTimeUtc) (oidc_token : Option OidcToken)
    (res_view : Option String) : Except NimbusError (HttpResponse × Task) :=
  let task := Task.new_task service method body headers name schedule_time oidc_token
  push_task sdk queue task res_view

end task

/-! ## Claims about the storage helpers -/

/-- C1: for every bucket, key, optional MIME type and byte vector, over
the map model of the object store, a successful `upload_from_bytes`
followed by `download_to_bytes` (with no network fault on the download)
succeeds and returns exactly the uploaded bytes — on both the GCP and the
AWS implementation. -/
theorem c1_upload_then_download_roundtrip
    (fault : Option String) (st : storage.Store) (bucket key : String)
    (mime : Option String) (data : Bytes) (st' : storage.Store) :
    (storage.gcp.upload_from_bytes fault st bucket key mime data = (st', .ok ()) →
      storage.gcp.download_to_bytes none st' bucket key = .ok data) ∧
    (storage.aws.upload_from_bytes fault st bucket key mime data = (st', .ok ()) →
      storage.aws.download_to_bytes none st' bucket key = .ok data) := by
  constructor <;> intro h <;>
    cases fault with
    | some e =>
      simp [storage.gcp.upload_from_bytes, storage.aws.upload_from_bytes,
        storage.gcs_upload_object, storage.s3_put_object] at h
    | none =>
      simp [storage.gcp.upload_from_bytes, storage.aws.upload_from_bytes,
        storage.gcs_upload_object, storage.s3_put_object] at h
      subst h
      simp [storage.gcp.download_to_bytes, storage.aws.download_to_bytes,
        storage.gcs_download_object, storage.s3_get_object,
        storage.aws.download_to_bytes_resp, storage.read_body, alookup]

/-- Witness for C1 at a concrete store, bucket, key and payload. -/
theorem c1_upload_then_download_roundtrip_witness :
    storage.gcp.download_to_bytes none [(("b", "k"), ⟨none, [1, 2]⟩)] "b" "k" =
      .ok [1, 2] ∧
    storage.aws.download_to_bytes none [(("b", "k"), ⟨none, [1, 2]⟩)] "b" "k" =
      .ok [1, 2] :=
  ⟨(c1_upload_then_download_roundtrip none [] "b" "k" none [1, 2]
      [(("b", "k"), ⟨none, [1, 2]⟩)]).1 rfl,
   (c1_upload_then_download_roundtrip none [] "b" "k" none [1, 2]
      [(("b", "k"), ⟨none, [1, 2]⟩)]).2 rfl⟩

/-- C2: evaluation of the AWS `download_to_bytes` body-reading loop at a
stream that fails after its first chunk: the failure is silently dropped
by the `while let Ok(Some(_))` pattern and the truncated prefix is
returned as `Ok [1]` — not as an `Err` wrapping the stream failure, as
both the claim and the function's evident intent (every other failure in
the same function is wrapped and returned) require. -/
theorem c2_aws_stream_error_swallowed :
    storage.aws.download_to_bytes_resp
      (.ok [.chunk [1], .fail "connection reset", .chunk [2]]) = .ok [1] := by
  rfl

/-- C7: `valid_file_type` returns `Ok(())` iff the sniffer recognises the
file and the inferred extension equals `expected`, and returns
`Err(InvalidFileType)` exactly when the sniffer fails or the extension
differs. -/
theorem c7_valid_file_type_iff
    (get : Bytes → Option storage.FileType) (file : Bytes) (expected : String) :
    (storage.valid_file_type get file expected = .ok () ↔
      ∃ ft, get file = some ft ∧ ft.extension = expected) ∧
    ((∃ m, storage.valid_file_type get file expected =
        .error (.StorageClient (.InvalidFileType m))) ↔
      (get file = none ∨ ∃ ft, get file = some ft ∧ ft.extension ≠ expected)) := by
  cases hg : get file with
  | none => simp [storage.valid_file_type, hg]
  | some ft =>
    by_cases he : ft.extension = expected <;>
      simp [storage.valid_file_type, hg, he]

/-- The parent of `path_dir.join(key)` in the segment model of paths. -/
theorem join_dropLast (l : storage.Path) (a : String) : (l ++ [a]).dropLast = l := by
  simp

/-- C8: when `download_file` (instantiated at the GCP client) succeeds,
the returned path is `path_dir.join(key)`, the file at that path holds
exactly the bytes `download_to_bytes` returned, and `path_dir` is a
directory afterwards; and it fails with an `Other` error when `path_dir`
exists and is not a directory. -/
theorem c8_download_file_writes
    (fault : Option String) (st : storage.Store) (fs : storage.FS)
    (bucket key : String) (path_dir : storage.Path) :
    (∀ fs' p,
      storage.download_file (storage.gcp.download_to_bytes fault st)
          fs bucket key path_dir = .ok (fs', p) →
        p = path_dir ++ [key] ∧
        ∃ data, storage.gcp.download_to_bytes fault st bucket key = .ok data ∧
          alookup fs'.files p = some data ∧ fs'.is_dir path_dir = true) ∧
    (fs.existsPath path_dir = true → fs.is_dir path_dir = false →
      ∃ m,
        storage.download_file (storage.gcp.download_to_bytes fault st)
            fs bucket key path_dir = .error (.StorageClient (.Other m))) := by
  constructor
  · intro fs' p h
    simp only [storage.download_file] at h
    split at h
    · exact absurd h (by simp)
    · rename_i fs1 hstep
      split at h
      · rename_i hdir
        split at h
        · exact absurd h (by simp)
        · rename_i data hdl
          split at h
          · exact absurd h (by simp)
          · rename_i fs2 hcd
            split at h
            · exact absurd h (by simp)
            · rename_i fs3 hw
              simp only [Except.ok.injEq, Prod.mk.injEq] at h
              obtain ⟨hfs, hp⟩ := h
              subst hfs; subst hp
              refine ⟨rfl, data, hdl, ?_, ?_⟩
              · simp only [storage.FS.writeFile] at hw
                split at hw
                · simp at hw
                · simp only [Except.ok.injEq] at hw
                  subst hw
                  simp [alookup]
              · simp only [storage.FS.writeFile] at hw
                split at hw
                · simp at hw
                · simp only [Except.ok.injEq] at hw
                  subst hw
                  simp only [storage.FS.create_dir_all, join_dropLast] at hcd
                  split at hcd
                  · simp at hcd
                  · simp only [Except.ok.injEq] at hcd
                    subst hcd
                    simp [storage.FS.is_dir]
      · simp at h
  · intro hex hnd
    exact ⟨"Path " ++ String.intercalate "/" path_dir ++ " is not a directory",
      by simp [storage.download_file, hex, hnd]⟩

/-- Witness for C8 at a concrete store, empty filesystem and directory
`["d"]`: the download succeeds and the written file holds the stored
bytes. -/
theorem c8_download_file_writes_witness :
    (["d", "k"] : storage.Path) = ["d"] ++ ["k"] ∧
    ∃ data,
      storage.gcp.download_to_bytes none [(("b", "k"), ⟨none, [7]⟩)] "b" "k" =
        .ok data ∧
      alookup (⟨[["d"], ["d"]], [(["d", "k"], [7])]⟩ : storage.FS).files
        ["d", "k"] = some data ∧
      (⟨[["d"], ["d"]], [(["d", "k"], [7])]⟩ : storage.FS).is_dir ["d"] = true :=
  (c8_download_file_writes none [(("b", "k"), ⟨none, [7]⟩)] ⟨[], []⟩
      "b" "k" ["d"]).1
    ⟨[["d"], ["d"]], [(["d", "k"], [7])]⟩ ["d", "k"] (by rfl)

/-- C10: when `upload_file` (instantiated at the GCP client) succeeds, the
object stored under (bucket, key) is the file's bytes with
`content_type = none` — the file-path convenience always passes
`mime = None`. -/
theorem c10_upload_file_no_mime
    (fault : Option String) (st : storage.Store) (fs : storage.FS)
    (bucket key : String) (path : storage.Path) (st' : storage.Store) :
    storage.gcp.upload_file fault st fs bucket key path = (st', .ok ()) →
    ∃ data, fs.readFile path = .ok data ∧
      alookup st' (bucket, key) = some ⟨none, data⟩ := by
  intro h
  simp only [storage.gcp.upload_file] at h
  split at h
  · exact absurd h (by simp)
  · rename_i data hr
    refine ⟨data, hr, ?_⟩
    cases fault with
    | some e =>
      simp [storage.gcp.upload_from_bytes, storage.gcs_upload_object] at h
    | none =>
      simp only [storage.gcp.upload_from_bytes, storage.gcs_upload_object,
        Prod.mk.injEq] at h
      obtain ⟨hst, -⟩ := h
      subst hst
      simp [alookup]

/-- Witness for C10 at a one-file filesystem: the uploaded object carries
no content type. -/
theorem c10_upload_file_no_mime_witness :
    ∃ data,
      (⟨[], [(["f"], [9])]⟩ : storage.FS).readFile ["f"] = .ok data ∧
      alookup [(("b", "k"), (⟨none, [9]⟩ : storage.StoredObject))] ("b", "k") =
        some ⟨none, data⟩ :=
  c10_upload_file_no_mime none [] ⟨[], [(["f"], [9])]⟩ "b" "k" ["f"]
    [(("b", "k"), ⟨none, [9]⟩)] (by rfl)

/-! ## Claims about the secret helpers -/

/-- C3: after a successful GCP `create_secret` — which creates the secret
resource and then adds the value's UTF-8 bytes as a new version —
`get_secret` (accessing the version named "latest", with no network
fault) returns exactly the value's UTF-8 bytes. -/
theorem c3_create_then_get_secret
    (fault1 fault2 : Option String) (st : secret.SecretStore)
    (project name value : String) (st' : secret.SecretStore) :
    secret.gcp.create_secret fault1 fault2 st project name value = (st', .ok ()) →
    secret.gcp.get_secret none st' project name = .ok (utf8Bytes value) := by
  intro h
  cases fault1 with
  | some e => simp [secret.gcp.create_secret, secret.secrets_create] at h
  | none =>
    cases hl : alookup st (project, name) with
    | some vs =>
      simp [secret.gcp.create_secret, secret.secrets_create, hl] at h
    | none =>
      cases fault2 with
      | some e =>
        simp [secret.gcp.create_secret, secret.secrets_create,
          secret.secrets_add_version, hl] at h
      | none =>
        simp only [secret.gcp.create_secret, secret.secrets_create,
          secret.secrets_add_version, hl, alookup, if_pos, Prod.mk.injEq] at h
        obtain ⟨hst, -⟩ := h
        subst hst
        simp [secret.gcp.get_secret, secret.gcp.get_secret_of_resp,
          secret.secrets_versions_access, alookup]

/-- Witness for C3 at the empty store and a concrete project, name and
value. -/
theorem c3_create_then_get_secret_witness :
    secret.gcp.get_secret none
      ((secret.gcp.create_secret none none [] "p" "s" "v").1) "p" "s" =
      .ok (utf8Bytes "v") :=
  c3_create_then_get_secret none none [] "p" "s" "v"
    (secret.gcp.create_secret none none [] "p" "s" "v").1 (by rfl)

/-- C4: the GCP `get_secret` and `get_secret_version` unwrap logic maps
the raw SDK outcome exactly as claimed: `NoPayload` iff the response has
no payload, `NoData` iff the payload has no data, a wrapped
`SecretManager` error iff the SDK call itself failed, and `Ok` with the
payload's data bytes otherwise. -/
theorem c4_gcp_secret_error_mapping
    (r : Except String secret.AccessSecretVersionResponse) :
    (secret.gcp.get_secret_of_resp r = .error (.SecretManager .NoPayload) ↔
      r = .ok ⟨none⟩) ∧
    (secret.gcp.get_secret_of_resp r = .error (.SecretManager .NoData) ↔
      r = .ok ⟨some ⟨none⟩⟩) ∧
    ((∃ e, secret.gcp.get_secret_of_resp r =
        .error (.SecretManager (.SecretManager e))) ↔ ∃ e, r = .error e) ∧
    (∀ d, secret.gcp.get_secret_of_resp r = .ok d ↔ r = .ok ⟨some ⟨some d⟩⟩) ∧
    (secret.gcp.get_secret_version_of_resp r = .error (.SecretManager .NoPayload) ↔
      r = .ok ⟨none⟩) ∧
    (secret.gcp.get_secret_version_of_resp r = .error (.SecretManager .NoData) ↔
      r = .ok ⟨some ⟨none⟩⟩) ∧
    ((∃ e, secret.gcp.get_secret_version_of_resp r =
        .error (.SecretManager (.SecretManager e))) ↔ ∃ e, r = .error e) ∧
    (∀ d, secret.gcp.get_secret_version_of_resp r = .ok d ↔
      r = .ok ⟨some ⟨some d⟩⟩) := by
  rcases r with e | ⟨pl⟩
  · simp [secret.gcp.get_secret_of_resp, secret.gcp.get_secret_version_of_resp]
  · rcases pl with _ | ⟨dt⟩
    · simp [secret.gcp.get_secret_of_resp, secret.gcp.get_secret_version_of_resp]
    · rcases dt with _ | d <;>
        simp [secret.gcp.get_secret_of_resp, secret.gcp.get_secret_version_of_resp]

/-- C9: on the AWS implementation, for a stored secret's actual payload
shape, `get_secret` succeeds exactly on string payloads (returning the
string's UTF-8 bytes, and failing with the `"invalid secret"`
`SecretManager` error on binary payloads) while `get_secret_version`
succeeds exactly on binary payloads; the two never succeed on the same
stored payload. -/
theorem c9_aws_secret_payload_shapes (p : secret.aws.StoredPayload) :
    (∀ s, p = .str s →
      secret.aws.get_secret_of_resp (.ok (secret.aws.respOf p)) =
        .ok (utf8Bytes s) ∧
      secret.aws.get_secret_version_of_resp (.ok (secret.aws.respOf p)) =
        .error (.SecretManager (.SecretManager "invalid secret"))) ∧
    (∀ b, p = .bin b →
      secret.aws.get_secret_version_of_resp (.ok (secret.aws.respOf p)) = .ok b ∧
      secret.aws.get_secret_of_resp (.ok (secret.aws.respOf p)) =
        .error (.SecretManager (.SecretManager "invalid secret"))) ∧
    ¬((∃ d, secret.aws.get_secret_of_resp (.ok (secret.aws.respOf p)) = .ok d) ∧
      (∃ d, secret.aws.get_secret_version_of_resp (.ok (secret.aws.respOf p)) =
        .ok d)) := by
  cases p with
  | str s =>
    simp [secret.aws.get_secret_of_resp, secret.aws.get_secret_version_of_resp,
      secret.aws.respOf]
  | bin b =>
    simp [secret.aws.get_secret_of_resp, secret.aws.get_secret_version_of_resp,
      secret.aws.respOf]

/-- Witness for C9 at a concrete string payload and a concrete binary
payload. -/
theorem c9_aws_secret_payload_shapes_witness :
    secret.aws.get_secret_of_resp (.ok (secret.aws.respOf (.str "a"))) =
      .ok (utf8Bytes "a") ∧
    secret.aws.get_secret_version_of_resp (.ok (secret.aws.respOf (.bin [3]))) =
      .ok [3] :=
  ⟨((c9_aws_secret_payload_shapes (.str "a")).1 "a" rfl).1,
   ((c9_aws_secret_payload_shapes (.bin [3])).2.1 [3] rfl).1⟩

/-! ## Claims about the task helpers -/

/-- C5: `Task::new_task` returns a task whose `http_request` is `Some` of
an `HttpRequest` with `url = Some(service)`, `http_method = Some(method)`
and the passed body, headers and OIDC token, and whose `name` and
`schedule_time` are the passed options. -/
theorem c5_new_task_fields (service method : String) (body : Option Bytes)
    (headers : Option (List (String × String))) (name : Option String)
    (schedule_time : Option task.DateTimeUtc) (oidc_token : Option task.OidcToken) :
    ∃ hr,
      (task.Task.new_task service method body headers name schedule_time
        oidc_token).http_request = some hr ∧
      hr.url = some service ∧ hr.http_method = some method ∧ hr.body = body ∧
      hr.headers = headers ∧ hr.oidc_token = oidc_token ∧
      (task.Task.new_task service method body headers name schedule_time
        oidc_token).name = name ∧
      (task.Task.new_task service method body headers name schedule_time
        oidc_token).schedule_time = schedule_time :=
  ⟨_, rfl, rfl, rfl, rfl, rfl, rfl, rfl, rfl⟩

/-- C6: `push` behaves identically to `push_task` applied to
`Task::new_task`, and `push_task` submits to the named queue a
`CreateTaskRequest` whose task is `Some` of the given task and whose
`response_view` is `res_view`, wrapping an SDK failure in
`Error::CloudTasks`. -/
theorem c6_push_refines_push_task (sdk : task.TasksSdk)
    (queue service method : String) (body : Option Bytes)
    (headers : Option (List (String × String))) (name : Option String)
    (schedule_time : Option task.DateTimeUtc) (oidc_token : Option task.OidcToken)
    (res_view : Option String) :
    task.push sdk queue service method body headers name schedule_time
        oidc_token res_view =
      task.push_task sdk queue
        (task.Task.new_task service method body headers name schedule_time
          oidc_token) res_view ∧
    ∀ t, task.push_task sdk queue t res_view =
      (match sdk ⟨res_view, some t⟩ queue with
       | .ok a => .ok a
       | .error e => .error (.TasksClient (.CloudTasks e))) :=
  ⟨rfl, fun _ => rfl⟩

end Nimbus
